import Mathlib

/-!
Shallow embedding of the clinic back-office application (src/app.py and
src/models.py): the data model, the WTForms-style form validation, the
date parsing and formatting used for appointment dates, and the request
handlers of every `/admin/*` route plus `/login`.
-/

/-- Calendar date, modelling Python `datetime.date`. -/
structure Date where
  year : Nat
  month : Nat
  day : Nat
deriving DecidableEq

/-- Date-time down to seconds, modelling Python `datetime.datetime`
(sub-second precision is never produced by the application's parser). -/
structure DateTime where
  year : Nat
  month : Nat
  day : Nat
  hour : Nat
  minute : Nat
  second : Nat
deriving DecidableEq

/-- Gregorian leap-year rule, as in Python's `datetime` module. -/
def isLeapYear (y : Nat) : Bool :=
  y % 4 == 0 && (y % 100 != 0 || y % 400 == 0)

/-- Days in a month, as in Python's `datetime` module. -/
def daysInMonth (y m : Nat) : Nat :=
  if m == 2 then (if isLeapYear y then 29 else 28)
  else if m == 4 || m == 6 || m == 9 || m == 11 then 30
  else 31

/-- Range checks performed by the `datetime.datetime` constructor
(`MINYEAR = 1`, `MAXYEAR = 9999`). -/
def DateTime.valid (dt : DateTime) : Bool :=
  decide (1 ≤ dt.year ∧ dt.year ≤ 9999 ∧ 1 ≤ dt.month ∧ dt.month ≤ 12 ∧
    1 ≤ dt.day ∧ dt.day ≤ daysInMonth dt.year dt.month ∧
    dt.hour ≤ 23 ∧ dt.minute ≤ 59 ∧ dt.second ≤ 59)

/-- Range checks performed by the `datetime.date` constructor. -/
def Date.valid (d : Date) : Bool :=
  decide (1 ≤ d.year ∧ d.year ≤ 9999 ∧ 1 ≤ d.month ∧ d.month ≤ 12 ∧
    1 ≤ d.day ∧ d.day ≤ daysInMonth d.year d.month)

/-!
Model of CPython `datetime.strptime` for the two fixed format strings the
application uses, `'%Y-%m-%d %H:%M'` (appointment dates) and `'%Y-%m-%d'`
(patient birth dates).  CPython's `_strptime` compiles the format into the
regular expression
`\d\d\d\d` `-` `(1[0-2]|0[1-9]|[1-9])` `-` `(3[01]|[12]\d|0[1-9]|[1-9])`
`\s+` `(2[0-3]|[0-1]\d|\d)` `:` `([0-5]\d|\d)`
which must match the whole input, and then the `datetime` constructor
re-validates the field ranges (day against the month length, year at
least 1).  The embedding below lists match candidates in the regex
engine's backtracking order (alternatives left to right, `\s+` greedy) and
keeps the first full match, exactly as the leftmost regex match, restricted
to ASCII digits and ASCII whitespace.
-/

/-- Read one ASCII digit (regex `\d`). -/
def readDigit : List Char → Option (Nat × List Char)
  | c :: rest => if c.isDigit then some (c.toNat - 48, rest) else none
  | [] => none

/-- Regex fragment `\d\d\d\d` for `%Y`: exactly four digits. -/
def parseYear (s : List Char) : List (Nat × List Char) :=
  match readDigit s with
  | none => []
  | some (a, s1) =>
    match readDigit s1 with
    | none => []
    | some (b, s2) =>
      match readDigit s2 with
      | none => []
      | some (c, s3) =>
        match readDigit s3 with
        | none => []
        | some (d, s4) => [(((a * 10 + b) * 10 + c) * 10 + d, s4)]

/-- Regex fragment `1[0-2]|0[1-9]|[1-9]` for `%m`, candidates in
alternation order. -/
def parseMonth (s : List Char) : List (Nat × List Char) :=
  (match s with
   | c1 :: c2 :: rest =>
     (if c1 = '1' ∧ (c2 = '0' ∨ c2 = '1' ∨ c2 = '2') then
        [(10 + (c2.toNat - 48), rest)] else []) ++
     (if c1 = '0' ∧ '1' ≤ c2 ∧ c2 ≤ '9' then [(c2.toNat - 48, rest)] else [])
   | _ => []) ++
  (match s with
   | c1 :: rest => if '1' ≤ c1 ∧ c1 ≤ '9' then [(c1.toNat - 48, rest)] else []
   | [] => [])

/-- Regex fragment `3[01]|[12]\d|0[1-9]|[1-9]` for `%d`, candidates in
alternation order. -/
def parseDay (s : List Char) : List (Nat × List Char) :=
  (match s with
   | c1 :: c2 :: rest =>
     (if c1 = '3' ∧ (c2 = '0' ∨ c2 = '1') then
        [(30 + (c2.toNat - 48), rest)] else []) ++
     (if (c1 = '1' ∨ c1 = '2') ∧ c2.isDigit then
        [((c1.toNat - 48) * 10 + (c2.toNat - 48), rest)] else []) ++
     (if c1 = '0' ∧ '1' ≤ c2 ∧ c2 ≤ '9' then [(c2.toNat - 48, rest)] else [])
   | _ => []) ++
  (match s with
   | c1 :: rest => if '1' ≤ c1 ∧ c1 ≤ '9' then [(c1.toNat - 48, rest)] else []
   | [] => [])

/-- Regex fragment `2[0-3]|[0-1]\d|\d` for `%H`, candidates in
alternation order. -/
def parseHour (s : List Char) : List (Nat × List Char) :=
  (match s with
   | c1 :: c2 :: rest =>
     (if c1 = '2' ∧ ('0' ≤ c2 ∧ c2 ≤ '3') then
        [(20 + (c2.toNat - 48), rest)] else []) ++
     (if (c1 = '0' ∨ c1 = '1') ∧ c2.isDigit then
        [((c1.toNat - 48) * 10 + (c2.toNat - 48), rest)] else [])
   | _ => []) ++
  (match s with
   | c1 :: rest => if c1.isDigit then [(c1.toNat - 48, rest)] else []
   | [] => [])

/-- Regex fragment `[0-5]\d|\d` for `%M`, candidates in alternation
order. -/
def parseMinute (s : List Char) : List (Nat × List Char) :=
  (match s with
   | c1 :: c2 :: rest =>
     if ('0' ≤ c1 ∧ c1 ≤ '5') ∧ c2.isDigit then
       [((c1.toNat - 48) * 10 + (c2.toNat - 48), rest)] else []
   | _ => []) ++
  (match s with
   | c1 :: rest => if c1.isDigit then [(c1.toNat - 48, rest)] else []
   | [] => [])

/-- ASCII whitespace, the relevant fragment of regex `\s`. -/
def isWsChar (c : Char) : Bool :=
  c.toNat == 32 || c.toNat == 9 || c.toNat == 10 ||
  c.toNat == 11 || c.toNat == 12 || c.toNat == 13

/-- Regex fragment `\s+`: remainders after consuming at least one
whitespace character, longest match first (greedy). -/
def parseWs : List Char → List (List Char)
  | c :: rest => if isWsChar c then parseWs rest ++ [rest] else []
  | [] => []

/-- A literal character of the format string. -/
def parseLit (c : Char) : List Char → List (List Char)
  | x :: rest => if x = c then [rest] else []
  | [] => []

/-- All full matches of the compiled `'%Y-%m-%d %H:%M'` regex against the
whole input, in backtracking order; the head, when present, is the match
the regex engine returns. -/
def parseAll (s : List Char) : List DateTime :=
  (parseYear s).flatMap fun (y, s1) =>
  (parseLit '-' s1).flatMap fun s2 =>
  (parseMonth s2).flatMap fun (mo, s3) =>
  (parseLit '-' s3).flatMap fun s4 =>
  (parseDay s4).flatMap fun (d, s5) =>
  (parseWs s5).flatMap fun s6 =>
  (parseHour s6).flatMap fun (h, s7) =>
  (parseLit ':' s7).flatMap fun s8 =>
  (parseMinute s8).flatMap fun (mi, s9) =>
  if s9 = [] then [⟨y, mo, d, h, mi, 0⟩] else []

/-- `datetime.strptime(s, '%Y-%m-%d %H:%M')`: `none` models the
`ValueError` raised on a failed regex match or a failed constructor
range check. -/
def strptimeYmdHM (s : String) : Option DateTime :=
  match parseAll s.data with
  | [] => none
  | dt :: _ => if dt.valid then some dt else none

/-- All full matches of the compiled `'%Y-%m-%d'` regex against the whole
input, in backtracking order. -/
def parseAllYmd (s : List Char) : List Date :=
  (parseYear s).flatMap fun (y, s1) =>
  (parseLit '-' s1).flatMap fun s2 =>
  (parseMonth s2).flatMap fun (mo, s3) =>
  (parseLit '-' s3).flatMap fun s4 =>
  (parseDay s4).flatMap fun (d, s5) =>
  if s5 = [] then [⟨y, mo, d⟩] else []

/-- `datetime.strptime(s, '%Y-%m-%d').date()`, used by the patient and
doctor birth-date field. -/
def strptimeYmd (s : String) : Option Date :=
  match parseAllYmd s.data with
  | [] => none
  | d :: _ => if d.valid then some d else none

/-- Character for a single decimal digit. -/
def digitChar (n : Nat) : Char := Char.ofNat (48 + n)

/-- Two-digit zero-padded rendering (`%m`, `%d`, `%H`, `%M`). -/
def pad2 (n : Nat) : List Char := [digitChar (n / 10), digitChar (n % 10)]

/-- Four-digit zero-padded rendering of `%Y`, per the Python documentation
of `strftime` (C-library variance for years below 1000 is not modelled). -/
def pad4 (n : Nat) : List Char :=
  [digitChar (n / 1000), digitChar (n / 100 % 10),
   digitChar (n / 10 % 10), digitChar (n % 10)]

/-- `dt.strftime('%Y-%m-%d %H:%M')`, the rendering used to pre-fill the
appointment edit form (src/app.py line 249). -/
def DateTime.strftimeYmdHM (dt : DateTime) : String :=
  String.mk (pad4 dt.year ++ '-' ::
    (pad2 dt.month ++ '-' ::
      (pad2 dt.day ++ ' ' ::
        (pad2 dt.hour ++ ':' :: pad2 dt.minute))))

/-- `d.strftime('%Y-%m-%d')`, the rendering a `DateField` uses to pre-fill
an edit form. -/
def Date.strftimeYmd (d : Date) : String :=
  String.mk (pad4 d.year ++ '-' :: (pad2 d.month ++ '-' :: pad2 d.day))

/-!
Data model from src/models.py.  Primary keys are SQLite integer row ids;
`nextId` models autoincrement assignment (`max(id) + 1`).  A nullable
text column is embedded as `String` (the form layer always submits a
string) and the nullable date column as `Option Date`.
-/

/-- Table `admin_users` (src/models.py lines 7-17).  `password_hash` is
the werkzeug hash; hash checking itself is an external primitive and is
passed to the `login` handler as a function parameter. -/
structure AdminUser where
  id : Int
  username : String
  password_hash : String
deriving DecidableEq

/-- Table `patients` (src/models.py lines 19-26). -/
structure Patient where
  id : Int
  full_name : String
  phone : String
  email : String
  birth_date : Option Date
  address : String
deriving DecidableEq

/-- Table `doctors` (src/models.py lines 28-35). -/
structure Doctor where
  id : Int
  full_name : String
  specialty : String
  phone : String
  email : String
  room : String
deriving DecidableEq

/-- Table `appointments` (src/models.py lines 37-46). -/
structure Appointment where
  id : Int
  patient_id : Int
  doctor_id : Int
  appointment_date : DateTime
  status : String
deriving DecidableEq

/-- The persisted state: the four relational tables, each held in
insertion order (SQLite returns rows of these unordered queries in rowid,
i.e. insertion, order). -/
structure DBState where
  admin_users : List AdminUser
  patients : List Patient
  doctors : List Doctor
  appointments : List Appointment
deriving DecidableEq

/-- Status choices of `AppointmentForm` (src/app.py line 48):
scheduled, completed, cancelled. -/
def statusChoices : List String := ["запланирован", "завершён", "отменён"]

/-- Column default for `appointments.status` (src/models.py line 43):
`запланирован` = scheduled. -/
def defaultStatus : String := "запланирован"

/-- A row inserted without an explicit status receives the column
default (src/models.py line 43). -/
def Appointment.mkWithDefaultStatus (id patient_id doctor_id : Int)
    (d : DateTime) : Appointment :=
  ⟨id, patient_id, doctor_id, d, defaultStatus⟩

/-!
Raw form submissions, one structure per `FlaskForm` subclass of
src/app.py lines 23-49.  Select fields with `coerce=int` are embedded
after integer coercion.
-/

/-- `LoginForm` (src/app.py lines 23-26). -/
structure LoginFormData where
  username : String
  password : String
deriving DecidableEq

/-- `PatientForm` (src/app.py lines 28-34). -/
structure PatientFormData where
  full_name : String
  phone : String
  email : String
  birth_date : String
  address : String
deriving DecidableEq

/-- `DoctorForm` (src/app.py lines 36-42). -/
structure DoctorFormData where
  full_name : String
  specialty : String
  phone : String
  email : String
  room : String
deriving DecidableEq

/-- `AppointmentForm` (src/app.py lines 44-49). -/
structure AppointmentFormData where
  patient_id : Int
  doctor_id : Int
  appointment_date : String
  status : String
deriving DecidableEq

/-- WTForms `DataRequired`: fails when the value, stripped of
whitespace, is empty. -/
def dataRequired (s : String) : Bool := s.data.any (fun c => !(isWsChar c))

/-- ASCII letter or digit. -/
def isAlphaNum (c : Char) : Bool := c.isAlpha || c.isDigit

/-- One dot-separated label of a hostname: letters, digits and single
hyphens, not at the edges (regex `(xn-|[a-z0-9]+)(-[a-z0-9]+)*`,
case-insensitive; consecutive hyphens are not distinguished here). -/
def hostnameLabelOk (part : List Char) : Bool :=
  !part.isEmpty && part.all (fun c => isAlphaNum c || c == '-') &&
  (match part.head? with | some c => isAlphaNum c | none => false) &&
  (match part.getLast? with | some c => isAlphaNum c | none => false)

/-- Top-level-domain label: at least two letters (regex `[a-z]{2,20}`,
case-insensitive). -/
def tldLabelOk (part : List Char) : Bool :=
  decide (2 ≤ part.length) && decide (part.length ≤ 20) && part.all Char.isAlpha

/-- Modelled from the form-validation library's `Email` validator, an
out-of-scope external capability per spec section 1: the value must match
`^.+@([^.@][^@\s]+)$` (so the part after the last `@` is at least two
characters, does not start with a dot, and contains no whitespace, with a
non-empty local part before it), and the hostname after the `@` must be
dot-separated valid labels whose last label is a TLD of letters.  The
empty string matches neither. Restricted to ASCII. -/
def emailOk (s : String) : Bool :=
  let l := s.data
  if l.contains '@' then
    let domain := (l.reverse.takeWhile (fun c => c ≠ '@')).reverse
    let localLen := l.length - domain.length - 1
    decide (1 ≤ localLen) && decide (2 ≤ domain.length) &&
    (match domain.head? with | some c => decide (c ≠ '.') | none => false) &&
    domain.all (fun c => !(isWsChar c)) &&
    (let labels := domain.splitOn '.'
     labels.all hostnameLabelOk &&
     (match labels.getLast? with | some t => tldLabelOk t | none => false))
  else false

/-- `PatientForm` validation: `DataRequired` and `Length` on name and
phone, `Length` and `Email` on email, and the `DateField`'s
`%Y-%m-%d` parse of the submitted birth-date text (a failed parse is a
process error that fails validation). -/
def validatePatientForm (f : PatientFormData) : Bool :=
  dataRequired f.full_name && decide (f.full_name.length ≤ 150) &&
  dataRequired f.phone && decide (f.phone.length ≤ 20) &&
  decide (f.email.length ≤ 120) && emailOk f.email &&
  (strptimeYmd f.birth_date).isSome

/-- `DoctorForm` validation (src/app.py lines 36-42). -/
def validateDoctorForm (f : DoctorFormData) : Bool :=
  dataRequired f.full_name && decide (f.full_name.length ≤ 150) &&
  dataRequired f.specialty && decide (f.specialty.length ≤ 100) &&
  dataRequired f.phone && decide (f.phone.length ≤ 20) &&
  decide (f.email.length ≤ 120) && emailOk f.email &&
  decide (f.room.length ≤ 20)

/-- `LoginForm` validation: both fields `DataRequired`. -/
def validateLoginForm (f : LoginFormData) : Bool :=
  dataRequired f.username && dataRequired f.password

/-- `AppointmentForm` validation against the current database: the two
`SelectField`s reject any value outside the choices lists populated from
the `patients` and `doctors` tables (src/app.py lines 208-209 and
233-234), `DataRequired` rejects a falsy id (0) and a blank date string,
and the status `SelectField` rejects values outside its three fixed
choices. -/
def validateAppointmentForm (db : DBState) (f : AppointmentFormData) : Bool :=
  decide (f.patient_id ≠ 0) && db.patients.any (fun p => p.id == f.patient_id) &&
  decide (f.doctor_id ≠ 0) && db.doctors.any (fun d => d.id == f.doctor_id) &&
  dataRequired f.appointment_date &&
  statusChoices.contains f.status

/-- Dashboard statistics (src/app.py lines 92-99). -/
structure Stats where
  patients : Nat
  doctors : Nat
  appointments : Nat
  today_appointments : Nat
deriving DecidableEq

/-- HTTP response view-model: a redirect (the `login_required` redirect
carries a `next` query parameter on the same `/login` path, not
modelled), a 404, a 500 for a request that dies on an unhandled
`IntegrityError` at commit, or a rendered template together with the
data handed to it.  A re-rendered form carries the submitted values
(`none` stands for a fresh GET form). -/
inductive Response where
  | redirect (path : String)
  | notFound
  | serverError
  | renderLogin (form : Option LoginFormData)
  | renderDashboard (stats : Stats)
  | renderPatientList (items : List Patient)
  | renderPatientForm (title : String) (form : Option PatientFormData)
  | renderDoctorList (items : List Doctor)
  | renderDoctorForm (title : String) (form : Option DoctorFormData)
  | renderApptList (items : List Appointment)
  | renderApptForm (title : String) (form : Option AppointmentFormData)
      (patientOptions : List (Int × String)) (doctorOptions : List (Int × String))
deriving DecidableEq

/-- Outcome of one request: the response, the flashed messages, the
database after the request, and the session after the request. -/
structure HandlerResult where
  response : Response
  flashes : List String
  db : DBState
  session : Option Int
deriving DecidableEq

def loginPath : String := "/login"

def dashboardPath : String := "/admin"

def patientsPath : String := "/admin/patients"

def doctorsPath : String := "/admin/doctors"

def appointmentsPath : String := "/admin/appointments"

/-- Flash emitted by flask-login's default `unauthorized` handler. -/
def loginRequiredMsg : String := "Please log in to access this page."

def loginFailMsg : String := "Неверное имя пользователя или пароль."

def loginOkMsg : String := "Вы успешно вошли в систему!"

def badDateMsg : String := "Неверный формат даты. Используйте ГГГГ-ММ-ДД ЧЧ:ММ"

def patientAddedMsg : String := "Пациент добавлен!"

def patientUpdatedMsg : String := "Пациент обновлён!"

def patientDeletedMsg : String := "Пациент удалён!"

def doctorAddedMsg : String := "Врач добавлен!"

def doctorUpdatedMsg : String := "Врач обновлён!"

def doctorDeletedMsg : String := "Врач удалён!"

def apptAddedMsg : String := "Приём добавлен!"

def apptUpdatedMsg : String := "Приём обновлён!"

def apptDeletedMsg : String := "Приём удалён!"

def addPatientTitle : String := "Добавить пациента"

def editPatientTitle : String := "Редактировать пациента"

def addDoctorTitle : String := "Добавить врача"

def editDoctorTitle : String := "Редактировать врача"

def addApptTitle : String := "Добавить приём"

def editApptTitle : String := "Редактировать приём"

/-- The `@login_required` decorator (flask-login): with no valid session
the request is answered by a redirect to the login page and the handler
body never runs. -/
def loginRequiredGate (session : Option Int) (db : DBState)
    (body : HandlerResult) : HandlerResult :=
  match session with
  | none => ⟨.redirect loginPath, [loginRequiredMsg], db, none⟩
  | some _ => body

/-- SQLite autoincrement primary-key assignment: one more than the
largest id in the table. -/
def nextId (ids : List Int) : Int := ids.foldr max 0 + 1

/-- `query.paginate(page=page, per_page=10)` of flask-sqlalchemy with the
default `error_out=True`: pages below 1 and empty pages other than page 1
abort with 404. -/
def paginate {α : Type} (l : List α) (page : Int) : Option (List α) :=
  if page < 1 then none
  else
    let items := (l.drop ((page - 1).toNat * 10)).take 10
    if items.isEmpty && page != 1 then none else some items

/-- Choices of the patient `SelectField` (src/app.py lines 208, 233). -/
def patientChoices (db : DBState) : List (Int × String) :=
  db.patients.map (fun p => (p.id, p.full_name))

/-- Choices of the doctor `SelectField` (src/app.py lines 209, 234). -/
def doctorChoices (db : DBState) : List (Int × String) :=
  db.doctors.map (fun d => (d.id, d.full_name ++ " (" ++ d.specialty ++ ")"))

/-- Date component of a date-time: SQLite `date()` applied to the stored
column, and also Python `datetime.today().date()`. -/
def dateOf (dt : DateTime) : Date := ⟨dt.year, dt.month, dt.day⟩

/-- Sort key of a date-time for the appointment list ordering. -/
def DateTime.key (dt : DateTime) : Nat :=
  ((((dt.year * 13 + dt.month) * 32 + dt.day) * 24 + dt.hour) * 60 + dt.minute) * 60
    + dt.second

/-- Route `/login` (src/app.py lines 67-80).  `chk` is werkzeug's
`check_password_hash`, an external hashing primitive passed in as a
parameter; `sub = none` models a GET or an unsubmitted form. -/
def login (chk : String → String → Bool) (db : DBState) (session : Option Int)
    (sub : Option LoginFormData) : HandlerResult :=
  match session with
  | some uid => ⟨.redirect dashboardPath, [], db, some uid⟩
  | none =>
    match sub with
    | none => ⟨.renderLogin none, [], db, none⟩
    | some f =>
      if validateLoginForm f then
        match db.admin_users.find? (fun u => u.username == f.username) with
        | some u =>
          if chk u.password_hash f.password then
            ⟨.redirect dashboardPath, [loginOkMsg], db, some u.id⟩
          else ⟨.renderLogin (some f), [loginFailMsg], db, none⟩
        | none => ⟨.renderLogin (some f), [loginFailMsg], db, none⟩
      else ⟨.renderLogin (some f), [], db, none⟩

/-- The dashboard statistics query (src/app.py lines 92-99): four counts,
the last comparing the date component of each appointment with the
server's current date. -/
def getStats (db : DBState) (today : Date) : Stats :=
  ⟨db.patients.length, db.doctors.length, db.appointments.length,
   (db.appointments.filter (fun a => dateOf a.appointment_date == today)).length⟩

/-- Route `/admin` (src/app.py lines 89-100). -/
def dashboard (db : DBState) (session : Option Int) (today : Date) : HandlerResult :=
  loginRequiredGate session db
    ⟨.renderDashboard (getStats db today), [], db, session⟩

/-- Route `/admin/patients` (src/app.py lines 103-108). -/
def patients (db : DBState) (session : Option Int) (page : Int) : HandlerResult :=
  loginRequiredGate session db
    (match paginate db.patients page with
     | none => ⟨.notFound, [], db, session⟩
     | some items => ⟨.renderPatientList items, [], db, session⟩)

/-- Route `/admin/patients/add` (src/app.py lines 110-126). -/
def add_patient (db : DBState) (session : Option Int)
    (sub : Option PatientFormData) : HandlerResult :=
  loginRequiredGate session db
    (match sub with
     | none => ⟨.renderPatientForm addPatientTitle none, [], db, session⟩
     | some f =>
       if validatePatientForm f then
         match strptimeYmd f.birth_date with
         | some bd =>
           let p : Patient := ⟨nextId (db.patients.map (fun q => q.id)),
             f.full_name, f.phone, f.email, some bd, f.address⟩
           ⟨.redirect patientsPath, [patientAddedMsg],
            { db with patients := db.patients ++ [p] }, session⟩
         | none => ⟨.renderPatientForm addPatientTitle (some f), [], db, session⟩
       else ⟨.renderPatientForm addPatientTitle (some f), [], db, session⟩)

/-- Form contents shown when editing an existing patient
(`PatientForm(obj=patient)`). -/
def patientFormOf (p : Patient) : PatientFormData :=
  ⟨p.full_name, p.phone, p.email,
   (match p.birth_date with | some d => d.strftimeYmd | none => ""), p.address⟩

/-- Route `/admin/patients/edit/<id>` (src/app.py lines 128-138);
`populate_obj` copies every validated form field onto the row. -/
def edit_patient (db : DBState) (session : Option Int) (id : Int)
    (sub : Option PatientFormData) : HandlerResult :=
  loginRequiredGate session db
    (match db.patients.find? (fun p => p.id == id) with
     | none => ⟨.notFound, [], db, session⟩
     | some p =>
       match sub with
       | none =>
         ⟨.renderPatientForm editPatientTitle (some (patientFormOf p)), [], db, session⟩
       | some f =>
         if validatePatientForm f then
           match strptimeYmd f.birth_date with
           | some bd =>
             let p' : Patient := ⟨p.id, f.full_name, f.phone, f.email, some bd, f.address⟩
             ⟨.redirect patientsPath, [patientUpdatedMsg],
              { db with patients := db.patients.map (fun q => if q.id == id then p' else q) },
              session⟩
           | none => ⟨.renderPatientForm editPatientTitle (some f), [], db, session⟩
         else ⟨.renderPatientForm editPatientTitle (some f), [], db, session⟩)

/-- Route `/admin/patients/delete/<id>` (src/app.py lines 140-147):
`get_or_404`, then delete of the row with that primary key.  The
relationship in src/models.py line 45 carries no delete cascade, so on a
parent delete the ORM nullifies `appointments.patient_id` on the
dependents at flush; that column is NOT NULL (src/models.py line 40), so
when dependent appointments exist the commit raises `IntegrityError`,
the request dies with a 500 before the flash, and nothing is removed —
the latent integrity bug the spec records in section 9. -/
def delete_patient (db : DBState) (session : Option Int) (id : Int) : HandlerResult :=
  loginRequiredGate session db
    (match db.patients.find? (fun p => p.id == id) with
     | none => ⟨.notFound, [], db, session⟩
     | some _ =>
       if db.appointments.any (fun a => a.patient_id == id) then
         ⟨.serverError, [], db, session⟩
       else
         ⟨.redirect patientsPath, [patientDeletedMsg],
          { db with patients := db.patients.filter (fun p => p.id != id) }, session⟩)

/-- Route `/admin/doctors` (src/app.py lines 150-155). -/
def doctors (db : DBState) (session : Option Int) (page : Int) : HandlerResult :=
  loginRequiredGate session db
    (match paginate db.doctors page with
     | none => ⟨.notFound, [], db, session⟩
     | some items => ⟨.renderDoctorList items, [], db, session⟩)

/-- Route `/admin/doctors/add` (src/app.py lines 157-173). -/
def add_doctor (db : DBState) (session : Option Int)
    (sub : Option DoctorFormData) : HandlerResult :=
  loginRequiredGate session db
    (match sub with
     | none => ⟨.renderDoctorForm addDoctorTitle none, [], db, session⟩
     | some f =>
       if validateDoctorForm f then
         let d : Doctor := ⟨nextId (db.doctors.map (fun q => q.id)),
           f.full_name, f.specialty, f.phone, f.email, f.room⟩
         ⟨.redirect doctorsPath, [doctorAddedMsg],
          { db with doctors := db.doctors ++ [d] }, session⟩
       else ⟨.renderDoctorForm addDoctorTitle (some f), [], db, session⟩)

/-- Form contents shown when editing an existing doctor. -/
def doctorFormOf (d : Doctor) : DoctorFormData :=
  ⟨d.full_name, d.specialty, d.phone, d.email, d.room⟩

/-- Route `/admin/doctors/edit/<id>` (src/app.py lines 175-185). -/
def edit_doctor (db : DBState) (session : Option Int) (id : Int)
    (sub : Option DoctorFormData) : HandlerResult :=
  loginRequiredGate session db
    (match db.doctors.find? (fun d => d.id == id) with
     | none => ⟨.notFound, [], db, session⟩
     | some d =>
       match sub with
       | none =>
         ⟨.renderDoctorForm editDoctorTitle (some (doctorFormOf d)), [], db, session⟩
       | some f =>
         if validateDoctorForm f then
           let d' : Doctor := ⟨d.id, f.full_name, f.specialty, f.phone, f.email, f.room⟩
           ⟨.redirect doctorsPath, [doctorUpdatedMsg],
            { db with doctors := db.doctors.map (fun q => if q.id == id then d' else q) },
            session⟩
         else ⟨.renderDoctorForm editDoctorTitle (some f), [], db, session⟩)

/-- Route `/admin/doctors/delete/<id>` (src/app.py lines 187-194): as
for patients, a doctor with dependent appointments cannot be removed —
the ORM nullify onto the NOT NULL `appointments.doctor_id` column
(src/models.py lines 41 and 46) raises `IntegrityError` at commit, a 500
with nothing removed. -/
def delete_doctor (db : DBState) (session : Option Int) (id : Int) : HandlerResult :=
  loginRequiredGate session db
    (match db.doctors.find? (fun d => d.id == id) with
     | none => ⟨.notFound, [], db, session⟩
     | some _ =>
       if db.appointments.any (fun a => a.doctor_id == id) then
         ⟨.serverError, [], db, session⟩
       else
         ⟨.redirect doctorsPath, [doctorDeletedMsg],
          { db with doctors := db.doctors.filter (fun d => d.id != id) }, session⟩)

/-- Route `/admin/appointments` (src/app.py lines 197-202): ordered by
appointment date descending, then paginated. -/
def appointments (db : DBState) (session : Option Int) (page : Int) : HandlerResult :=
  loginRequiredGate session db
    (match paginate
        (db.appointments.mergeSort
          (fun a b => decide (b.appointment_date.key ≤ a.appointment_date.key))) page with
     | none => ⟨.notFound, [], db, session⟩
     | some items => ⟨.renderApptList items, [], db, session⟩)

/-- Route `/admin/appointments/add` (src/app.py lines 204-226): after
form validation the date text is parsed with
`datetime.strptime(..., '%Y-%m-%d %H:%M')`; a `ValueError` flashes the
format message and re-renders the form with the submitted values, writing
nothing. -/
def add_appointment (db : DBState) (session : Option Int)
    (sub : Option AppointmentFormData) : HandlerResult :=
  loginRequiredGate session db
    (match sub with
     | none =>
       ⟨.renderApptForm addApptTitle none (patientChoices db) (doctorChoices db),
        [], db, session⟩
     | some f =>
       if validateAppointmentForm db f then
         match strptimeYmdHM f.appointment_date with
         | none =>
           ⟨.renderApptForm addApptTitle (some f) (patientChoices db) (doctorChoices db),
            [badDateMsg], db, session⟩
         | some dt =>
           let a : Appointment := ⟨nextId (db.appointments.map (fun q => q.id)),
             f.patient_id, f.doctor_id, dt, f.status⟩
           ⟨.redirect appointmentsPath, [apptAddedMsg],
            { db with appointments := db.appointments ++ [a] }, session⟩
       else
         ⟨.renderApptForm addApptTitle (some f) (patientChoices db) (doctorChoices db),
          [], db, session⟩)

/-- Form contents shown when editing an existing appointment; the date
field is pre-filled with `strftime('%Y-%m-%d %H:%M')`
(src/app.py line 249). -/
def apptFormOf (a : Appointment) : AppointmentFormData :=
  ⟨a.patient_id, a.doctor_id, a.appointment_date.strftimeYmdHM, a.status⟩

/-- Route `/admin/appointments/edit/<id>` (src/app.py lines 228-250). -/
def edit_appointment (db : DBState) (session : Option Int) (id : Int)
    (sub : Option AppointmentFormData) : HandlerResult :=
  loginRequiredGate session db
    (match db.appointments.find? (fun a => a.id == id) with
     | none => ⟨.notFound, [], db, session⟩
     | some a =>
       match sub with
       | none =>
         ⟨.renderApptForm editApptTitle (some (apptFormOf a))
            (patientChoices db) (doctorChoices db), [], db, session⟩
       | some f =>
         if validateAppointmentForm db f then
           match strptimeYmdHM f.appointment_date with
           | none =>
             ⟨.renderApptForm editApptTitle (some f)
                (patientChoices db) (doctorChoices db), [badDateMsg], db, session⟩
           | some dt =>
             let a' : Appointment := ⟨a.id, f.patient_id, f.doctor_id, dt, f.status⟩
             ⟨.redirect appointmentsPath, [apptUpdatedMsg],
              { db with appointments :=
                  db.appointments.map (fun q => if q.id == id then a' else q) },
              session⟩
         else
           ⟨.renderApptForm editApptTitle (some f)
              (patientChoices db) (doctorChoices db), [], db, session⟩)

/-- Route `/admin/appointments/delete/<id>` (src/app.py lines 252-259). -/
def delete_appointment (db : DBState) (session : Option Int) (id : Int) : HandlerResult :=
  loginRequiredGate session db
    (match db.appointments.find? (fun a => a.id == id) with
     | none => ⟨.notFound, [], db, session⟩
     | some _ =>
       ⟨.redirect appointmentsPath, [apptDeletedMsg],
        { db with appointments := db.appointments.filter (fun a => a.id != id) }, session⟩)

/-- The full `/admin/*` surface: every administrative route with its
request payload (the server-local date for the dashboard, the page number
for the lists, the path id and the optional form submission for the
mutating routes). -/
inductive AdminRoute where
  | dashboardR (today : Date)
  | patientsR (page : Int)
  | addPatientR (sub : Option PatientFormData)
  | editPatientR (id : Int) (sub : Option PatientFormData)
  | deletePatientR (id : Int)
  | doctorsR (page : Int)
  | addDoctorR (sub : Option DoctorFormData)
  | editDoctorR (id : Int) (sub : Option DoctorFormData)
  | deleteDoctorR (id : Int)
  | appointmentsR (page : Int)
  | addAppointmentR (sub : Option AppointmentFormData)
  | editAppointmentR (id : Int) (sub : Option AppointmentFormData)
  | deleteAppointmentR (id : Int)

/-- Dispatch of an `/admin/*` request to its handler. -/
def handleAdmin (r : AdminRoute) (session : Option Int) (db : DBState) : HandlerResult :=
  match r with
  | .dashboardR today => dashboard db session today
  | .patientsR page => patients db session page
  | .addPatientR sub => add_patient db session sub
  | .editPatientR id sub => edit_patient db session id sub
  | .deletePatientR id => delete_patient db session id
  | .doctorsR page => doctors db session page
  | .addDoctorR sub => add_doctor db session sub
  | .editDoctorR id sub => edit_doctor db session id sub
  | .deleteDoctorR id => delete_doctor db session id
  | .appointmentsR page => appointments db session page
  | .addAppointmentR sub => add_appointment db session sub
  | .editAppointmentR id sub => edit_appointment db session id sub
  | .deleteAppointmentR id => delete_appointment db session id

/-!
Concrete database used to witness the claim theorems: the bootstrap
admin, one patient, one doctor, and two appointments dated on
consecutive days.
-/

def exAdmin : AdminUser := ⟨1, "admin", "hash-of-admin123"⟩

def exPatient : Patient :=
  ⟨1, "Иванов Иван", "+7-900-000-00-01", "ivanov@mail.ru", some ⟨1990, 1, 1⟩, "ул. Ленина, 1"⟩

def exDoctor : Doctor :=
  ⟨1, "Петров Пётр", "Терапевт", "+7-900-000-00-02", "petrov@mail.ru", "101"⟩

def exApptToday : Appointment := ⟨1, 1, 1, ⟨2024, 3, 15, 10, 0, 0⟩, "запланирован"⟩

def exApptYesterday : Appointment := ⟨2, 1, 1, ⟨2024, 3, 14, 9, 30, 0⟩, "запланирован"⟩

def exDb : DBState := ⟨[exAdmin], [exPatient], [exDoctor], [exApptToday, exApptYesterday]⟩

def exToday : Date := ⟨2024, 3, 15⟩

/-- C1: every request to an `/admin/*` route without a valid
authenticated session is answered by a redirect to `/login`, and the
database (all four tables) is left exactly as it was: no mutation. -/
theorem admin_routes_require_auth (r : AdminRoute) (db : DBState) :
    handleAdmin r none db = ⟨.redirect loginPath, [loginRequiredMsg], db, none⟩ := by
  cases r <;> rfl

/-- C2: a failed login with a non-existent username and a failed login
with an existing username but a wrong password produce identical outcomes:
the same single generic flash message, a re-rendered login page, no
session established, and an unchanged database — nothing discloses
whether the username exists. -/
theorem login_failures_indistinguishable
    (chk : String → String → Bool) (db : DBState)
    (f1 f2 : LoginFormData) (u : AdminUser)
    (h1v : validateLoginForm f1 = true)
    (h2v : validateLoginForm f2 = true)
    (h1 : db.admin_users.find? (fun w => w.username == f1.username) = none)
    (h2 : db.admin_users.find? (fun w => w.username == f2.username) = some u)
    (hpw : chk u.password_hash f2.password = false) :
    login chk db none (some f1) = ⟨.renderLogin (some f1), [loginFailMsg], db, none⟩ ∧
    login chk db none (some f2) = ⟨.renderLogin (some f2), [loginFailMsg], db, none⟩ ∧
    (login chk db none (some f1)).flashes = (login chk db none (some f2)).flashes ∧
    (login chk db none (some f1)).session = none ∧
    (login chk db none (some f2)).session = none ∧
    (login chk db none (some f1)).db = db ∧
    (login chk db none (some f2)).db = db := by
  have e1 : login chk db none (some f1) = ⟨.renderLogin (some f1), [loginFailMsg], db, none⟩ := by
    simp [login, h1v, h1]
  have e2 : login chk db none (some f2) = ⟨.renderLogin (some f2), [loginFailMsg], db, none⟩ := by
    simp [login, h2v, h2, hpw]
  refine ⟨e1, e2, ?_, ?_, ?_, ?_, ?_⟩ <;> simp [e1, e2]

/-- Witness for C2 on the concrete database: unknown username `ghost`
versus existing username `admin` with a wrong password. -/
theorem login_failures_indistinguishable_witness :
    (login (fun _ _ => false) exDb none (some ⟨"ghost", "pw"⟩)).flashes =
      (login (fun _ _ => false) exDb none (some ⟨"admin", "wrong"⟩)).flashes ∧
    (login (fun _ _ => false) exDb none (some ⟨"ghost", "pw"⟩)).session = none ∧
    (login (fun _ _ => false) exDb none (some ⟨"admin", "wrong"⟩)).session = none ∧
    (login (fun _ _ => false) exDb none (some ⟨"admin", "wrong"⟩)).db = exDb := by
  have h := login_failures_indistinguishable (fun _ _ => false) exDb
    ⟨"ghost", "pw"⟩ ⟨"admin", "wrong"⟩ exAdmin
    (by decide) (by decide) (by decide) (by decide) rfl
  exact ⟨h.2.2.1, h.2.2.2.1, h.2.2.2.2.1, h.2.2.2.2.2.2⟩

/-- Shape of a successful pagination result. -/
theorem paginate_shape {α : Type} (l : List α) (page : Int) (items : List α)
    (h : paginate l page = some items) :
    items = (l.drop ((page - 1).toNat * 10)).take 10 := by
  unfold paginate at h
  split at h
  · exact absurd h (by simp)
  · simp only at h
    split at h
    · exact absurd h (by simp)
    · exact (Option.some.inj h).symm

/-- C6: every page served by the patient list and the doctor list holds
at most 10 records, and the records appear in insertion order (they form
a sublist of the table in stored order). -/
theorem list_pages_at_most_ten_in_order (db : DBState) (uid : Int) (page : Int)
    (ps : List Patient) (ds : List Doctor)
    (hp : (patients db (some uid) page).response = .renderPatientList ps)
    (hd : (doctors db (some uid) page).response = .renderDoctorList ds) :
    ps.length ≤ 10 ∧ ps.Sublist db.patients ∧
    ds.length ≤ 10 ∧ ds.Sublist db.doctors := by
  have hp' : paginate db.patients page = some ps := by
    unfold patients loginRequiredGate at hp
    rcases hpag : paginate db.patients page with _ | items
    · rw [hpag] at hp; exact absurd hp (by simp)
    · rw [hpag] at hp
      simp only [Response.renderPatientList.injEq] at hp
      rw [hp]
  have hd' : paginate db.doctors page = some ds := by
    unfold doctors loginRequiredGate at hd
    rcases hpag : paginate db.doctors page with _ | items
    · rw [hpag] at hd; exact absurd hd (by simp)
    · rw [hpag] at hd
      simp only [Response.renderDoctorList.injEq] at hd
      rw [hd]
  obtain rfl := paginate_shape _ _ _ hp'
  obtain rfl := paginate_shape _ _ _ hd'
  refine ⟨List.length_take_le 10 _, (List.take_sublist _ _).trans (List.drop_sublist _ _),
    List.length_take_le 10 _, (List.take_sublist _ _).trans (List.drop_sublist _ _)⟩

/-- Witness for C6 at page 1 of the concrete database. -/
theorem list_pages_at_most_ten_in_order_witness :
    [exPatient].length ≤ 10 ∧ [exPatient].Sublist exDb.patients ∧
    [exDoctor].length ≤ 10 ∧ [exDoctor].Sublist exDb.doctors :=
  list_pages_at_most_ten_in_order exDb 1 1 [exPatient] [exDoctor] (by decide) (by decide)

/-- C7: the appointment status field is confined to the three-value
enumeration (запланирован = scheduled, завершён = completed,
отменён = cancelled): a validated submission always carries one of the
three values; a submission with any other value fails form validation and
is re-rendered without touching the database (not silently coerced); and
a row created without an explicit status carries the column default,
scheduled. -/
theorem appointment_status_enumerated (db : DBState) (uid : Int)
    (f : AppointmentFormData) (i pid did : Int) (dt : DateTime) :
    (validateAppointmentForm db f = true → f.status ∈ statusChoices) ∧
    (f.status ∉ statusChoices →
      validateAppointmentForm db f = false ∧
      add_appointment db (some uid) (some f) =
        ⟨.renderApptForm addApptTitle (some f) (patientChoices db) (doctorChoices db),
         [], db, some uid⟩) ∧
    (Appointment.mkWithDefaultStatus i pid did dt).status = defaultStatus ∧
    defaultStatus = "запланирован" := by
  have hmem : ∀ b : Bool, statusChoices.contains f.status = b →
      (f.status ∈ statusChoices ↔ b = true) := by
    intro b hb
    rw [← hb, List.contains]
    exact ⟨fun hm => List.elem_iff.mpr hm, fun he => List.elem_iff.mp he⟩
  refine ⟨?_, ?_, rfl, rfl⟩
  · intro hv
    have : statusChoices.contains f.status = true := by
      rcases hc : statusChoices.contains f.status with _ | _
      · rw [validateAppointmentForm, hc] at hv; simp at hv
      · rfl
    exact (hmem true this).mpr rfl
  · intro hns
    have hc : statusChoices.contains f.status = false := by
      rcases hc : statusChoices.contains f.status with _ | _
      · rfl
      · exact absurd ((hmem true hc).mpr rfl) hns
    have hv : validateAppointmentForm db f = false := by
      rw [validateAppointmentForm, hc]; simp
    exact ⟨hv, by simp [add_appointment, loginRequiredGate, hv]⟩

/-- Witness for C7 with a status value outside the enumeration. -/
theorem appointment_status_enumerated_witness :
    validateAppointmentForm exDb ⟨1, 1, "2024-03-15 14:30", "draft"⟩ = false ∧
    (Appointment.mkWithDefaultStatus 3 1 1 ⟨2024, 3, 16, 9, 0, 0⟩).status = defaultStatus := by
  have h := appointment_status_enumerated exDb 1 ⟨1, 1, "2024-03-15 14:30", "draft"⟩
    3 1 1 ⟨2024, 3, 16, 9, 0, 0⟩
  exact ⟨(h.2.1 (by decide)).1, h.2.2.1⟩

/-- C9: the dashboard is read-only — it returns the database and session
unchanged — and its `today_appointments` statistic counts exactly the
appointments whose date component equals the server's current date; on
the concrete store holding one appointment dated today and one dated
yesterday the count is 1. -/
theorem dashboard_stats_correct (db : DBState) (uid : Int) (today : Date) :
    dashboard db (some uid) today =
      ⟨.renderDashboard (getStats db today), [], db, some uid⟩ ∧
    (getStats db today).today_appointments =
      (db.appointments.filter (fun a => dateOf a.appointment_date == today)).length ∧
    getStats exDb exToday = ⟨1, 1, 2, 1⟩ ∧
    (getStats exDb exToday).today_appointments = 1 := by
  exact ⟨rfl, rfl, by decide, by decide⟩

/-- C8 (the code against the claim): the email field of the patient and
doctor forms is not optional in the code — the `Email` validator runs
even on an empty submission and rejects it, although the schema declares
the column nullable.  An otherwise identical submission with a
well-formed email passes, so the empty email is the sole cause of the
failure, and the rejected create leaves the database unchanged. -/
theorem empty_email_rejected_by_forms :
    validatePatientForm ⟨"Анна Каренина", "+7-900-1", "", "1990-01-01", ""⟩ = false ∧
    validatePatientForm ⟨"Анна Каренина", "+7-900-1", "a@b.com", "1990-01-01", ""⟩ = true ∧
    emailOk "" = false ∧
    (add_patient exDb (some 1) (some ⟨"Анна Каренина", "+7-900-1", "", "1990-01-01", ""⟩)).db
      = exDb ∧
    (add_patient exDb (some 1) (some ⟨"Анна Каренина", "+7-900-1", "", "1990-01-01", ""⟩)).response
      = .renderPatientForm addPatientTitle
          (some ⟨"Анна Каренина", "+7-900-1", "", "1990-01-01", ""⟩) ∧
    validateDoctorForm ⟨"Сидорова Мария", "Хирург", "+7-900-2", "", "202"⟩ = false ∧
    validateDoctorForm ⟨"Сидорова Мария", "Хирург", "+7-900-2", "s@mail.ru", "202"⟩ = true := by
  decide

/-- No row whose key matches `id` survives filtering the key away;
hence a second lookup of `id` finds nothing. -/
theorem find?_filter_key_ne {α : Type} (l : List α) (f : α → Int) (id : Int) :
    (l.filter (fun x => f x != id)).find? (fun x => f x == id) = none := by
  induction l with
  | nil => rfl
  | cons x xs ih =>
    by_cases hx : f x = id
    · simp only [List.filter_cons, hx]
      simp [ih]
    · have hb : (f x != id) = true := bne_iff_ne.mpr hx
      have hb2 : (f x == id) = false := by
        rcases h : f x == id with _ | _
        · rfl
        · exact absurd (eq_of_beq h) hx
      simp only [List.filter_cons, hb, if_pos]
      rw [List.find?_cons, hb2]
      exact ih

/-- A delete on a missing patient id answers 404 and changes nothing
(`get_or_404`). -/
theorem delete_patient_404 (db : DBState) (uid id : Int)
    (h : db.patients.find? (fun p => p.id == id) = none) :
    delete_patient db (some uid) id = ⟨.notFound, [], db, some uid⟩ := by
  simp [delete_patient, loginRequiredGate, h]

/-- A delete on a missing doctor id answers 404 and changes nothing. -/
theorem delete_doctor_404 (db : DBState) (uid id : Int)
    (h : db.doctors.find? (fun d => d.id == id) = none) :
    delete_doctor db (some uid) id = ⟨.notFound, [], db, some uid⟩ := by
  simp [delete_doctor, loginRequiredGate, h]

/-- A delete on a missing appointment id answers 404 and changes
nothing. -/
theorem delete_appointment_404 (db : DBState) (uid id : Int)
    (h : db.appointments.find? (fun a => a.id == id) = none) :
    delete_appointment db (some uid) id = ⟨.notFound, [], db, some uid⟩ := by
  simp [delete_appointment, loginRequiredGate, h]

/-- A patient delete that answers the success redirect performed the
removal: the row existed, no appointment referenced it, and the
resulting table is the original minus that id. -/
theorem delete_patient_success (db : DBState) (uid id : Int)
    (h : (delete_patient db (some uid) id).response = .redirect patientsPath) :
    (delete_patient db (some uid) id).db =
      { db with patients := db.patients.filter (fun p => p.id != id) } := by
  rcases hf : db.patients.find? (fun p => p.id == id) with _ | p0
  · rw [delete_patient] at h
    simp [loginRequiredGate, hf] at h
  · rcases hdep : db.appointments.any (fun a => a.patient_id == id) with _ | _
    · simp [delete_patient, loginRequiredGate, hf, hdep]
    · rw [delete_patient] at h
      simp [loginRequiredGate, hf, hdep] at h

/-- A doctor delete that answers the success redirect performed the
removal. -/
theorem delete_doctor_success (db : DBState) (uid id : Int)
    (h : (delete_doctor db (some uid) id).response = .redirect doctorsPath) :
    (delete_doctor db (some uid) id).db =
      { db with doctors := db.doctors.filter (fun d => d.id != id) } := by
  rcases hf : db.doctors.find? (fun d => d.id == id) with _ | d0
  · rw [delete_doctor] at h
    simp [loginRequiredGate, hf] at h
  · rcases hdep : db.appointments.any (fun a => a.doctor_id == id) with _ | _
    · simp [delete_doctor, loginRequiredGate, hf, hdep]
    · rw [delete_doctor] at h
      simp [loginRequiredGate, hf, hdep] at h

/-- An appointment delete that answers the success redirect performed
the removal (no other table references appointments, so an existing row
is always removable). -/
theorem delete_appointment_success (db : DBState) (uid id : Int)
    (h : (delete_appointment db (some uid) id).response = .redirect appointmentsPath) :
    (delete_appointment db (some uid) id).db =
      { db with appointments := db.appointments.filter (fun a => a.id != id) } := by
  rcases hf : db.appointments.find? (fun a => a.id == id) with _ | a0
  · rw [delete_appointment] at h
    simp [loginRequiredGate, hf] at h
  · simp [delete_appointment, loginRequiredGate, hf]

/-- C5: for each of the three entities, a successful `delete(id)` — one
answered by the success redirect — removes the record: no row with that
id remains, no subsequent list page ever includes `id`, and a second
`delete(id)` answers 404 Not Found without further change.  (A patient
or doctor delete with dependent appointments is not successful: it dies
on `IntegrityError` with a 500 and removes nothing.) -/
theorem delete_removes_and_second_delete_404 (db : DBState) (uid pid did aid : Int)
    (hp : (delete_patient db (some uid) pid).response = .redirect patientsPath)
    (hd : (delete_doctor db (some uid) did).response = .redirect doctorsPath)
    (ha : (delete_appointment db (some uid) aid).response = .redirect appointmentsPath) :
    (∀ q ∈ (delete_patient db (some uid) pid).db.patients, q.id ≠ pid) ∧
    (∀ page items, paginate (delete_patient db (some uid) pid).db.patients page = some items →
      ∀ q ∈ items, q.id ≠ pid) ∧
    delete_patient (delete_patient db (some uid) pid).db (some uid) pid =
      ⟨.notFound, [], (delete_patient db (some uid) pid).db, some uid⟩ ∧
    (∀ q ∈ (delete_doctor db (some uid) did).db.doctors, q.id ≠ did) ∧
    (∀ page items, paginate (delete_doctor db (some uid) did).db.doctors page = some items →
      ∀ q ∈ items, q.id ≠ did) ∧
    delete_doctor (delete_doctor db (some uid) did).db (some uid) did =
      ⟨.notFound, [], (delete_doctor db (some uid) did).db, some uid⟩ ∧
    (∀ q ∈ (delete_appointment db (some uid) aid).db.appointments, q.id ≠ aid) ∧
    (∀ page items,
      paginate (delete_appointment db (some uid) aid).db.appointments page = some items →
      ∀ q ∈ items, q.id ≠ aid) ∧
    delete_appointment (delete_appointment db (some uid) aid).db (some uid) aid =
      ⟨.notFound, [], (delete_appointment db (some uid) aid).db, some uid⟩ := by
  have ep : (delete_patient db (some uid) pid).db.patients =
      db.patients.filter (fun p => p.id != pid) := by
    rw [delete_patient_success db uid pid hp]
  have ed : (delete_doctor db (some uid) did).db.doctors =
      db.doctors.filter (fun d => d.id != did) := by
    rw [delete_doctor_success db uid did hd]
  have ea : (delete_appointment db (some uid) aid).db.appointments =
      db.appointments.filter (fun a => a.id != aid) := by
    rw [delete_appointment_success db uid aid ha]
  have memP : ∀ q ∈ (delete_patient db (some uid) pid).db.patients, q.id ≠ pid := by
    intro q hq
    rw [ep] at hq
    exact bne_iff_ne.mp (List.mem_filter.mp hq).2
  have memD : ∀ q ∈ (delete_doctor db (some uid) did).db.doctors, q.id ≠ did := by
    intro q hq
    rw [ed] at hq
    exact bne_iff_ne.mp (List.mem_filter.mp hq).2
  have memA : ∀ q ∈ (delete_appointment db (some uid) aid).db.appointments, q.id ≠ aid := by
    intro q hq
    rw [ea] at hq
    exact bne_iff_ne.mp (List.mem_filter.mp hq).2
  refine ⟨memP, ?_, ?_, memD, ?_, ?_, memA, ?_, ?_⟩
  · intro page items hpag q hq
    obtain rfl := paginate_shape _ _ _ hpag
    exact memP q (((List.take_sublist _ _).trans (List.drop_sublist _ _)).subset hq)
  · have : ((delete_patient db (some uid) pid).db.patients.find?
        (fun p => p.id == pid)) = none := by
      rw [ep]; exact find?_filter_key_ne db.patients (fun p => p.id) pid
    exact delete_patient_404 _ uid pid this
  · intro page items hpag q hq
    obtain rfl := paginate_shape _ _ _ hpag
    exact memD q (((List.take_sublist _ _).trans (List.drop_sublist _ _)).subset hq)
  · have : ((delete_doctor db (some uid) did).db.doctors.find?
        (fun d => d.id == did)) = none := by
      rw [ed]; exact find?_filter_key_ne db.doctors (fun d => d.id) did
    exact delete_doctor_404 _ uid did this
  · intro page items hpag q hq
    obtain rfl := paginate_shape _ _ _ hpag
    exact memA q (((List.take_sublist _ _).trans (List.drop_sublist _ _)).subset hq)
  · have : ((delete_appointment db (some uid) aid).db.appointments.find?
        (fun a => a.id == aid)) = none := by
      rw [ea]; exact find?_filter_key_ne db.appointments (fun a => a.id) aid
    exact delete_appointment_404 _ uid aid this

/-- Patient with no dependent appointments, so deletable without the
integrity failure. -/
def exPatient2 : Patient :=
  ⟨2, "Смирнова Ольга", "+7-900-000-00-03", "smirnova@mail.ru", some ⟨1985, 5, 5⟩,
   "пр. Мира, 2"⟩

/-- Doctor with no dependent appointments. -/
def exDoctor2 : Doctor :=
  ⟨2, "Кузнецов Олег", "Хирург", "+7-900-000-00-04", "kuznetsov@mail.ru", "202"⟩

/-- Database for the delete witness: patient 2 and doctor 2 have no
dependent appointments, so deleting them succeeds, while both stored
appointments reference patient 1 and doctor 1. -/
def exDbDel : DBState :=
  ⟨[exAdmin], [exPatient, exPatient2], [exDoctor, exDoctor2],
   [exApptToday, exApptYesterday]⟩

/-- Witness for C5 on the concrete database: successful deletes of
patient 2, doctor 2 and appointment 1; deleting each again is a 404. -/
theorem delete_removes_and_second_delete_404_witness :
    (delete_patient exDbDel (some 1) 2).response = .redirect patientsPath ∧
    (delete_patient (delete_patient exDbDel (some 1) 2).db (some 1) 2).response
      = .notFound ∧
    (delete_doctor (delete_doctor exDbDel (some 1) 2).db (some 1) 2).response
      = .notFound ∧
    (delete_appointment (delete_appointment exDbDel (some 1) 1).db (some 1) 1).response
      = .notFound := by
  have h := delete_removes_and_second_delete_404 exDbDel 1 2 2 1
    (by decide) (by decide) (by decide)
  refine ⟨by decide, ?_, ?_, ?_⟩
  · rw [h.2.2.1]
  · rw [h.2.2.2.2.2.1]
  · rw [h.2.2.2.2.2.2.2.2]

/-- C4: an appointment create or update whose `patient_id` or `doctor_id`
does not reference an existing row fails validation (the select-field
choice check) and writes nothing; consequently any row appended by a
create, and every row present after an update, references an existing
patient and doctor at write time. -/
theorem appointment_references_must_exist (db : DBState) (uid id : Int)
    (f : AppointmentFormData) :
    ((db.patients.any fun p => p.id == f.patient_id) = false →
      add_appointment db (some uid) (some f) =
        ⟨.renderApptForm addApptTitle (some f) (patientChoices db) (doctorChoices db),
         [], db, some uid⟩) ∧
    ((db.doctors.any fun d => d.id == f.doctor_id) = false →
      add_appointment db (some uid) (some f) =
        ⟨.renderApptForm addApptTitle (some f) (patientChoices db) (doctorChoices db),
         [], db, some uid⟩) ∧
    (∀ a : Appointment,
      (add_appointment db (some uid) (some f)).db.appointments = db.appointments ++ [a] →
      (db.patients.any fun p => p.id == a.patient_id) = true ∧
      (db.doctors.any fun d => d.id == a.doctor_id) = true) ∧
    ((db.patients.any fun p => p.id == f.patient_id) = false →
      (edit_appointment db (some uid) id (some f)).db = db) ∧
    ((db.doctors.any fun d => d.id == f.doctor_id) = false →
      (edit_appointment db (some uid) id (some f)).db = db) ∧
    (∀ a ∈ (edit_appointment db (some uid) id (some f)).db.appointments,
      a ∈ db.appointments ∨
      ((db.patients.any fun p => p.id == a.patient_id) = true ∧
       (db.doctors.any fun d => d.id == a.doctor_id) = true)) := by
  have hvp : (db.patients.any fun p => p.id == f.patient_id) = false →
      validateAppointmentForm db f = false := by
    intro h; rw [validateAppointmentForm, h]; simp
  have hvd : (db.doctors.any fun d => d.id == f.doctor_id) = false →
      validateAppointmentForm db f = false := by
    intro h; rw [validateAppointmentForm, h]; simp
  refine ⟨?_, ?_, ?_, ?_, ?_, ?_⟩
  · intro h; simp [add_appointment, loginRequiredGate, hvp h]
  · intro h; simp [add_appointment, loginRequiredGate, hvd h]
  · intro a hEq
    rcases hv : validateAppointmentForm db f with _ | _
    · rw [add_appointment] at hEq
      simp [loginRequiredGate, hv] at hEq
    · rcases hdt : strptimeYmdHM f.appointment_date with _ | dt
      · rw [add_appointment] at hEq
        simp [loginRequiredGate, hv, hdt] at hEq
      · rw [add_appointment] at hEq
        simp only [loginRequiredGate, hv, hdt, if_true] at hEq
        have hsingle : [(⟨nextId (db.appointments.map fun q => q.id),
            f.patient_id, f.doctor_id, dt, f.status⟩ : Appointment)] = [a] :=
          List.append_cancel_left hEq
        have ha : a = ⟨nextId (db.appointments.map fun q => q.id),
            f.patient_id, f.doctor_id, dt, f.status⟩ := by
          cases hsingle; rfl
        rw [validateAppointmentForm] at hv
        simp only [Bool.and_eq_true] at hv
        rw [ha]
        exact ⟨hv.1.1.1.1.2, hv.1.1.2⟩
  · intro h
    rcases hfind : db.appointments.find? (fun x => x.id == id) with _ | a0
    · simp [edit_appointment, loginRequiredGate, hfind]
    · simp [edit_appointment, loginRequiredGate, hfind, hvp h]
  · intro h
    rcases hfind : db.appointments.find? (fun x => x.id == id) with _ | a0
    · simp [edit_appointment, loginRequiredGate, hfind]
    · simp [edit_appointment, loginRequiredGate, hfind, hvd h]
  · intro a hmem
    rcases hfind : db.appointments.find? (fun x => x.id == id) with _ | a0
    · rw [edit_appointment] at hmem
      simp only [loginRequiredGate, hfind] at hmem
      exact Or.inl hmem
    · rcases hv : validateAppointmentForm db f with _ | _
      · rw [edit_appointment] at hmem
        simp only [loginRequiredGate, hfind, hv, Bool.false_eq_true, if_false] at hmem
        exact Or.inl hmem
      · rcases hdt : strptimeYmdHM f.appointment_date with _ | dt
        · rw [edit_appointment] at hmem
          simp only [loginRequiredGate, hfind, hv, hdt, if_true] at hmem
          exact Or.inl hmem
        · rw [edit_appointment] at hmem
          simp only [loginRequiredGate, hfind, hv, hdt, if_true] at hmem
          obtain ⟨q, hq, hEq⟩ := List.mem_map.mp hmem
          rw [validateAppointmentForm] at hv
          simp only [Bool.and_eq_true] at hv
          rcases hid : (q.id == id) with _ | _
          · rw [hid] at hEq
            simp only [Bool.false_eq_true, if_false] at hEq
            exact Or.inl (hEq ▸ hq)
          · rw [hid] at hEq
            simp only [if_true] at hEq
            right
            rw [← hEq]
            exact ⟨hv.1.1.1.1.2, hv.1.1.2⟩

/-- Witness for C4: a create referencing patient id 99 (absent) is
re-rendered and writes nothing. -/
theorem appointment_references_must_exist_witness :
    add_appointment exDb (some 1) (some ⟨99, 1, "2024-03-15 14:30", "запланирован"⟩) =
      ⟨.renderApptForm addApptTitle (some ⟨99, 1, "2024-03-15 14:30", "запланирован"⟩)
        (patientChoices exDb) (doctorChoices exDb), [], exDb, some 1⟩ :=
  (appointment_references_must_exist exDb 1 1
    ⟨99, 1, "2024-03-15 14:30", "запланирован"⟩).1 (by decide)

/-- C3: once an appointment submission passes form validation, a date
text that fails the `%Y-%m-%d %H:%M` parse flashes the format error and
re-renders the form with the submitted values, writing and modifying
nothing, for create and update alike; a date text that parses is stored
as exactly the parsed date-time.  Concretely, `2024-13-40 25:99` is
rejected and `2024-03-15 14:30` is accepted as that exact date-time. -/
theorem appointment_date_parse_behaviour (db : DBState) (uid id : Int)
    (f : AppointmentFormData) (dt : DateTime) (a : Appointment)
    (hv : validateAppointmentForm db f = true)
    (ha : db.appointments.find? (fun x => x.id == id) = some a) :
    (strptimeYmdHM f.appointment_date = none →
      add_appointment db (some uid) (some f) =
        ⟨.renderApptForm addApptTitle (some f) (patientChoices db) (doctorChoices db),
         [badDateMsg], db, some uid⟩ ∧
      edit_appointment db (some uid) id (some f) =
        ⟨.renderApptForm editApptTitle (some f) (patientChoices db) (doctorChoices db),
         [badDateMsg], db, some uid⟩) ∧
    (strptimeYmdHM f.appointment_date = some dt →
      add_appointment db (some uid) (some f) =
        ⟨.redirect appointmentsPath, [apptAddedMsg],
         { db with appointments := db.appointments ++
             [⟨nextId (db.appointments.map fun q => q.id), f.patient_id, f.doctor_id, dt,
               f.status⟩] }, some uid⟩ ∧
      edit_appointment db (some uid) id (some f) =
        ⟨.redirect appointmentsPath, [apptUpdatedMsg],
         { db with appointments := (db.appointments.map
             (fun q => if q.id == id then ⟨a.id, f.patient_id, f.doctor_id, dt, f.status⟩
              else q)) }, some uid⟩) ∧
    strptimeYmdHM "2024-13-40 25:99" = none ∧
    strptimeYmdHM "2024-03-15 14:30" = some ⟨2024, 3, 15, 14, 30, 0⟩ := by
  refine ⟨?_, ?_, by decide, by decide⟩
  · intro hn
    exact ⟨by simp [add_appointment, loginRequiredGate, hv, hn],
           by simp [edit_appointment, loginRequiredGate, ha, hv, hn]⟩
  · intro hs
    exact ⟨by simp [add_appointment, loginRequiredGate, hv, hs],
           by simp [edit_appointment, loginRequiredGate, ha, hv, hs]⟩

/-- Witness for C3 on the concrete database: an otherwise valid
submission, the rejected malformed date and the accepted well-formed
date. -/
theorem appointment_date_parse_behaviour_witness :
    validateAppointmentForm exDb ⟨1, 1, "2024-03-15 14:30", "запланирован"⟩ = true ∧
    strptimeYmdHM "2024-13-40 25:99" = none ∧
    strptimeYmdHM "2024-03-15 14:30" = some ⟨2024, 3, 15, 14, 30, 0⟩ := by
  have h := appointment_date_parse_behaviour exDb 1 1
    ⟨1, 1, "2024-03-15 14:30", "запланирован"⟩ ⟨2024, 3, 15, 14, 30, 0⟩ exApptToday
    (by decide) (by decide)
  exact ⟨by decide, h.2.2.1, h.2.2.2⟩

/-!
Round trip between the edit-form pre-fill rendering
`strftime('%Y-%m-%d %H:%M')` and the submit-side parse
`strptime(..., '%Y-%m-%d %H:%M')`.
-/

theorem digitChar_isDigit (n : Nat) (h : n ≤ 9) : (digitChar n).isDigit = true := by
  interval_cases n <;> rfl

theorem digitChar_toNat (n : Nat) (h : n ≤ 9) : (digitChar n).toNat = 48 + n := by
  interval_cases n <;> rfl

theorem isWsChar_digitChar (n : Nat) (h : n ≤ 9) : isWsChar (digitChar n) = false := by
  interval_cases n <;> rfl

theorem readDigit_digitChar (n : Nat) (h : n ≤ 9) (l : List Char) :
    readDigit (digitChar n :: l) = some (n, l) := by
  have h1 := digitChar_isDigit n h
  have h2 := digitChar_toNat n h
  simp [readDigit, h1, h2]

theorem digitChar_ne (n : Nat) (h : n ≤ 9) (c : Char)
    (hc : c.toNat < 48 ∨ 57 < c.toNat) : digitChar n ≠ c := by
  intro hEq
  have h2 := digitChar_toNat n h
  rw [hEq] at h2
  omega

theorem parseLit_cons_self (c : Char) (l : List Char) : parseLit c (c :: l) = [l] := by
  simp [parseLit]

theorem parseLit_digit_ne (c : Char) (hc : c.toNat < 48 ∨ 57 < c.toNat)
    (n : Nat) (h : n ≤ 9) (l : List Char) : parseLit c (digitChar n :: l) = [] := by
  have hne := digitChar_ne n h c hc
  simp [parseLit, hne]

theorem parseWs_digit (n : Nat) (h : n ≤ 9) (l : List Char) :
    parseWs (digitChar n :: l) = [] := by
  simp [parseWs, isWsChar_digitChar n h]

theorem parseWs_space_pad2 (n : Nat) (hn : n / 10 ≤ 9) (l : List Char) :
    parseWs (' ' :: (pad2 n ++ l)) = [pad2 n ++ l] := by
  have hrest : parseWs (pad2 n ++ l) = [] := by
    simp only [pad2, List.cons_append, List.nil_append]
    exact parseWs_digit (n / 10) hn _
  show parseWs (pad2 n ++ l) ++ [pad2 n ++ l] = [pad2 n ++ l]
  rw [hrest]
  rfl

theorem parseYear_pad4 (y : Nat) (hy : y ≤ 9999) (r : List Char) :
    parseYear (pad4 y ++ r) = [(y, r)] := by
  have h1 : y / 1000 ≤ 9 := by omega
  have h2 : y / 100 % 10 ≤ 9 := by omega
  have h3 : y / 10 % 10 ≤ 9 := by omega
  have h4 : y % 10 ≤ 9 := by omega
  simp only [pad4, List.cons_append, List.nil_append, parseYear,
    readDigit_digitChar _ h1, readDigit_digitChar _ h2,
    readDigit_digitChar _ h3, readDigit_digitChar _ h4]
  have : ((y / 1000 * 10 + y / 100 % 10) * 10 + y / 10 % 10) * 10 + y % 10 = y := by
    omega
  rw [this]

theorem parseMonth_pad2_lt (mo : Nat) (h1 : 1 ≤ mo) (h2 : mo < 10) (r : List Char) :
    parseMonth (pad2 mo ++ r) = [(mo, r)] := by
  interval_cases mo <;> rfl

theorem parseMonth_pad2_ge (mo : Nat) (h1 : 10 ≤ mo) (h2 : mo ≤ 12) (r : List Char) :
    parseMonth (pad2 mo ++ r) = [(mo, r), (1, digitChar (mo % 10) :: r)] := by
  interval_cases mo <;> rfl

theorem parseDay_pad2_lt (d : Nat) (h1 : 1 ≤ d) (h2 : d < 10) (r : List Char) :
    parseDay (pad2 d ++ r) = [(d, r)] := by
  interval_cases d <;> rfl

theorem parseDay_pad2_ge (d : Nat) (h1 : 10 ≤ d) (h2 : d ≤ 31) (r : List Char) :
    parseDay (pad2 d ++ r) = [(d, r), (d / 10, digitChar (d % 10) :: r)] := by
  interval_cases d <;> rfl

theorem parseHour_pad2 (h : Nat) (hh : h ≤ 23) (r : List Char) :
    parseHour (pad2 h ++ r) = [(h, r), (h / 10, digitChar (h % 10) :: r)] := by
  interval_cases h <;> rfl

theorem parseMinute_pad2_end (m : Nat) (hm : m ≤ 59) :
    parseMinute (pad2 m) = [(m, []), (m / 10, [digitChar (m % 10)])] := by
  interval_cases m <;> rfl

/-- The compiled regex run on a canonically rendered date-time has the
rendered fields as its match. -/
theorem parseAll_canonical (y mo d h mi : Nat)
    (_hy1 : 1 ≤ y) (hy : y ≤ 9999) (hmo1 : 1 ≤ mo) (hmo : mo ≤ 12)
    (hd1 : 1 ≤ d) (hd : d ≤ 31) (hh : h ≤ 23) (hmi : mi ≤ 59) :
    parseAll (pad4 y ++ '-' :: (pad2 mo ++ '-' :: (pad2 d ++ ' ' ::
      (pad2 h ++ ':' :: pad2 mi)))) = [⟨y, mo, d, h, mi, 0⟩] := by
  have hmo10 : mo % 10 ≤ 9 := by omega
  have hd10 : d % 10 ≤ 9 := by omega
  have hh10 : h % 10 ≤ 9 := by omega
  have hh1 : h / 10 ≤ 9 := by omega
  have hdashNat : ('-').toNat < 48 ∨ 57 < ('-').toNat := by left; decide
  have hcolonNat : (':').toNat < 48 ∨ 57 < (':').toNat := by right; decide
  rcases Nat.lt_or_ge mo 10 with hmoLT | hmoGE <;>
    rcases Nat.lt_or_ge d 10 with hdLT | hdGE
  · simp [parseAll, parseYear_pad4 y hy, parseLit_cons_self,
      parseMonth_pad2_lt mo hmo1 hmoLT, parseDay_pad2_lt d hd1 hdLT,
      parseWs_space_pad2 h hh1, parseHour_pad2 h hh,
      parseLit_digit_ne ':' hcolonNat (h % 10) hh10,
      parseMinute_pad2_end mi hmi]
  · simp [parseAll, parseYear_pad4 y hy, parseLit_cons_self,
      parseMonth_pad2_lt mo hmo1 hmoLT, parseDay_pad2_ge d hdGE hd,
      parseWs_digit (d % 10) hd10,
      parseWs_space_pad2 h hh1, parseHour_pad2 h hh,
      parseLit_digit_ne ':' hcolonNat (h % 10) hh10,
      parseMinute_pad2_end mi hmi]
  · simp [parseAll, parseYear_pad4 y hy, parseLit_cons_self,
      parseMonth_pad2_ge mo hmoGE hmo,
      parseLit_digit_ne '-' hdashNat (mo % 10) hmo10,
      parseDay_pad2_lt d hd1 hdLT,
      parseWs_space_pad2 h hh1, parseHour_pad2 h hh,
      parseLit_digit_ne ':' hcolonNat (h % 10) hh10,
      parseMinute_pad2_end mi hmi]
  · simp [parseAll, parseYear_pad4 y hy, parseLit_cons_self,
      parseMonth_pad2_ge mo hmoGE hmo,
      parseLit_digit_ne '-' hdashNat (mo % 10) hmo10,
      parseDay_pad2_ge d hdGE hd,
      parseWs_digit (d % 10) hd10,
      parseWs_space_pad2 h hh1, parseHour_pad2 h hh,
      parseLit_digit_ne ':' hcolonNat (h % 10) hh10,
      parseMinute_pad2_end mi hmi]

theorem daysInMonth_le (y m : Nat) : daysInMonth y m ≤ 31 := by
  rw [daysInMonth]
  split
  · split <;> omega
  · split <;> omega

/-- Rendering a date-time with `'%Y-%m-%d %H:%M'` and parsing the result
back with the same format returns the original value, for every valid
date-time with zero seconds. -/
theorem strptime_strftime_roundtrip (dt : DateTime) (hv : dt.valid = true)
    (hs : dt.second = 0) :
    strptimeYmdHM dt.strftimeYmdHM = some dt := by
  have hv' := hv
  rw [DateTime.valid, decide_eq_true_eq] at hv'
  obtain ⟨h1, h2, h3, h4, h5, h6, h7, h8, h9⟩ := hv'
  have hd31 : dt.day ≤ 31 := le_trans h6 (daysInMonth_le dt.year dt.month)
  have hmk : (⟨dt.year, dt.month, dt.day, dt.hour, dt.minute, 0⟩ : DateTime) = dt := by
    cases dt
    simp_all
  have hcanon := parseAll_canonical dt.year dt.month dt.day dt.hour dt.minute
    h1 h2 h3 h4 h5 hd31 h7 h8
  rw [hmk] at hcanon
  rw [strptimeYmdHM]
  have hdata : (DateTime.strftimeYmdHM dt).data =
      pad4 dt.year ++ '-' :: (pad2 dt.month ++ '-' :: (pad2 dt.day ++ ' ' ::
        (pad2 dt.hour ++ ':' :: pad2 dt.minute))) := rfl
  rw [hdata, hcanon]
  show (if dt.valid then some dt else none) = some dt
  rw [hv]
  rfl

/-- C10: formatting a stored appointment date-time with
`'%Y-%m-%d %H:%M'` (the edit-form pre-fill) and re-parsing the result
with the same pattern yields the original value for every valid
date-time with zero seconds; hence re-submitting an unmodified edit form
replaces the stored row with itself, preserving `appointment_date`. -/
theorem edit_prefill_date_roundtrip (dt : DateTime) (db : DBState) (uid id : Int)
    (a : Appointment)
    (had : a.appointment_date = dt)
    (hv : dt.valid = true) (hs : dt.second = 0)
    (ha : db.appointments.find? (fun x => x.id == id) = some a)
    (hval : validateAppointmentForm db (apptFormOf a) = true) :
    strptimeYmdHM dt.strftimeYmdHM = some dt ∧
    edit_appointment db (some uid) id (some (apptFormOf a)) =
      ⟨.redirect appointmentsPath, [apptUpdatedMsg],
       { db with appointments :=
           (db.appointments.map (fun q => if q.id == id then a else q)) },
       some uid⟩ := by
  subst had
  have hrt := strptime_strftime_roundtrip a.appointment_date hv hs
  refine ⟨hrt, ?_⟩
  have hparse : strptimeYmdHM (apptFormOf a).appointment_date =
      some a.appointment_date := hrt
  simp only [edit_appointment, loginRequiredGate, ha, hval, hparse, if_true]
  rfl

/-- Witness for C10: the stored date of the concrete appointment
round-trips through the pre-fill rendering. -/
theorem edit_prefill_date_roundtrip_witness :
    (⟨2024, 3, 15, 10, 0, 0⟩ : DateTime).valid = true ∧
    strptimeYmdHM (DateTime.strftimeYmdHM ⟨2024, 3, 15, 10, 0, 0⟩) =
      some ⟨2024, 3, 15, 10, 0, 0⟩ := by
  have h := edit_prefill_date_roundtrip ⟨2024, 3, 15, 10, 0, 0⟩ exDb 1 1 exApptToday
    rfl (by decide) rfl (by decide) (by decide)
  exact ⟨by decide, h.1⟩
